import Mathlib

/-!
Shallow embedding of the ScamCheck repository core (files `app/checks.py`,
`app/database.py`, `app/sources.py`) and proofs about the spec's claims.

Conventions:
* Python byte strings are `List Nat` (each entry < 256), text is `String` or
  `List Char`.
* Machine-width arithmetic (SHA-256) is `Nat` with explicit `% 2^32`.
* External effects (HTTP responses, raised exceptions) are explicit
  parameters / constructors, so every embedded operation is a pure function
  of its inputs and of the observed behaviour of its collaborators.
-/

namespace ScamCheck

/-! ## Generic helpers: Python `str.strip`, substring search, list utilities -/

/-- ASCII whitespace stripped by Python `str.strip()` (space, tab, newline,
carriage return, vertical tab, form feed).  The exotic Unicode whitespace that
Python also strips never occurs in the inputs this development reasons about. -/
def pyWs (c : Char) : Bool :=
  c = ' ' || c = '\t' || c = '\n' || c = '\x0d' || c = '\x0b' || c = '\x0c'

/-- Python `s.strip()` on a list of characters. -/
def pyStripL (l : List Char) : List Char :=
  ((l.dropWhile pyWs).reverse.dropWhile pyWs).reverse

/-- Python `s.strip()`. -/
def pyStrip (s : String) : String :=
  String.mk (pyStripL s.data)

/-- Does `p` occur at the very start of `l`?  (Helper for substring search.) -/
def isPre : List Char → List Char → Bool
  | [], _ => true
  | _ :: _, [] => false
  | p :: ps, c :: cs => p = c && isPre ps cs

/-- Python `p in l` on strings: does `p` occur as a contiguous substring? -/
def containsSub (p : List Char) : List Char → Bool
  | [] => p.isEmpty
  | c :: cs => isPre p (c :: cs) || containsSub p cs

/-- Drop the prefix `p` from `l`, returning the rest, or `none` if `l` does
not start with `p`. -/
def stripPre : List Char → List Char → Option (List Char)
  | [], l => some l
  | _ :: _, [] => none
  | p :: ps, c :: cs => if p = c then stripPre ps cs else none

/-! ## SHA-256 (used by `_stable_score` in `app/checks.py`)

A direct `Nat`-based implementation of FIPS 180-4 SHA-256 over byte lists.
All words are kept `< 2^32` via `w32`. -/

def w32 (n : Nat) : Nat := n % 4294967296

def rotr32 (x n : Nat) : Nat := w32 ((x >>> n) ||| (x <<< (32 - n)))

def not32 (x : Nat) : Nat := 4294967295 ^^^ x

/-- SHA-256 round constants (FIPS 180-4 §4.2.2, written in decimal). -/
def sha256K : List Nat :=
  [1116352408, 1899447441, 3049323471, 3921009573, 961987163, 1508970993,
   2453635748, 2870763221, 3624381080, 310598401, 607225278, 1426881987,
   1925078388, 2162078206, 2614888103, 3248222580, 3835390401, 4022224774,
   264347078, 604807628, 770255983, 1249150122, 1555081692, 1996064986,
   2554220882, 2821834349, 2952996808, 3210313671, 3336571891, 3584528711,
   113926993, 338241895, 666307205, 773529912, 1294757372, 1396182291,
   1695183700, 1986661051, 2177026350, 2456956037, 2730485921, 2820302411,
   3259730800, 3345764771, 3516065817, 3600352804, 4094571909, 275423344,
   430227734, 506948616, 659060556, 883997877, 958139571, 1322822218,
   1537002063, 1747873779, 1955562222, 2024104815, 2227730452, 2361852424,
   2428436474, 2756734187, 3204031479, 3329325298]

/-- SHA-256 initial hash value (FIPS 180-4 §5.3.3, written in decimal). -/
def sha256H0 : List Nat :=
  [1779033703, 3144134277, 1013904242, 2773480762,
   1359893119, 2600822924, 528734635, 1541459225]

/-- Big-endian bytes (most significant first) of `n`, `k` bytes wide. -/
def beBytes (k n : Nat) : List Nat :=
  match k with
  | 0 => []
  | k + 1 => beBytes k (n / 256) ++ [n % 256]

/-- FIPS 180-4 padding: append `0x80`, zero bytes to 56 mod 64, then the
64-bit big-endian bit length of the original message. -/
def sha256Pad (msg : List Nat) : List Nat :=
  let zeros := (120 - (msg.length + 1) % 64) % 64
  msg ++ [0x80] ++ List.replicate zeros 0 ++ beBytes 8 (msg.length * 8)

/-- Split a byte list into 64-byte chunks (fuel-indexed so that the kernel can
reduce it; `fuel ≥ l.length` always suffices). -/
def chunksAux : Nat → List Nat → List (List Nat)
  | 0, _ => []
  | _, [] => []
  | fuel + 1, b :: rest => ((b :: rest).take 64) :: chunksAux fuel ((b :: rest).drop 64)

/-- Split a byte list into 64-byte chunks. -/
def chunks64 (l : List Nat) : List (List Nat) := chunksAux l.length l

/-- Big-endian 32-bit words of a byte list (length assumed divisible by 4). -/
def beWords : List Nat → List Nat
  | b0 :: b1 :: b2 :: b3 :: rest =>
      (((b0 * 256 + b1) * 256 + b2) * 256 + b3) :: beWords rest
  | _ => []

/-- One step of the message-schedule extension. -/
def schedNext (ws : List Nat) : Nat :=
  let wm15 := ws.getD (ws.length - 15) 0
  let wm2 := ws.getD (ws.length - 2) 0
  let wm16 := ws.getD (ws.length - 16) 0
  let wm7 := ws.getD (ws.length - 7) 0
  let s0 := (rotr32 wm15 7) ^^^ (rotr32 wm15 18) ^^^ (wm15 >>> 3)
  let s1 := (rotr32 wm2 17) ^^^ (rotr32 wm2 19) ^^^ (wm2 >>> 10)
  w32 (wm16 + s0 + wm7 + s1)

/-- Extend the 16 chunk words to the 64-entry message schedule. -/
def sha256Schedule (ws : List Nat) : List Nat :=
  (List.range 48).foldl (fun acc _ => acc ++ [schedNext acc]) ws

/-- One SHA-256 compression round.  State is `[a,b,c,d,e,f,g,h]`. -/
def sha256Round (st : List Nat) (kw : Nat × Nat) : List Nat :=
  match st with
  | [a, b, c, d, e, f, g, h] =>
    let s1 := (rotr32 e 6) ^^^ (rotr32 e 11) ^^^ (rotr32 e 25)
    let ch := (e &&& f) ^^^ ((not32 e) &&& g)
    let t1 := w32 (h + s1 + ch + kw.1 + kw.2)
    let s0 := (rotr32 a 2) ^^^ (rotr32 a 13) ^^^ (rotr32 a 22)
    let mj := (a &&& b) ^^^ (a &&& c) ^^^ (b &&& c)
    let t2 := w32 (s0 + mj)
    [w32 (t1 + t2), a, b, c, w32 (d + t1), e, f, g]
  | other => other

/-- Compress one 64-byte chunk into the running hash `hs`. -/
def sha256Chunk (hs : List Nat) (chunk : List Nat) : List Nat :=
  let ws := sha256Schedule (beWords chunk)
  let st := (sha256K.zip ws).foldl (fun s kw => sha256Round s kw) hs
  (hs.zip st).map (fun p => w32 (p.1 + p.2))

/-- SHA-256 digest (32 bytes) of a byte list. -/
def sha256 (msg : List Nat) : List Nat :=
  let hs := (chunks64 (sha256Pad msg)).foldl sha256Chunk sha256H0
  hs.foldr (fun h acc => beBytes 4 h ++ acc) []

/-! ## UTF-8 encoding (Python `str.encode()`) and hex digests -/

/-- UTF-8 bytes of one character. -/
def utf8Char (c : Char) : List Nat :=
  let n := c.toNat
  if n < 0x80 then [n]
  else if n < 0x800 then [0xC0 ||| (n >>> 6), 0x80 ||| (n &&& 0x3F)]
  else if n < 0x10000 then
    [0xE0 ||| (n >>> 12), 0x80 ||| ((n >>> 6) &&& 0x3F), 0x80 ||| (n &&& 0x3F)]
  else
    [0xF0 ||| (n >>> 18), 0x80 ||| ((n >>> 12) &&& 0x3F),
     0x80 ||| ((n >>> 6) &&& 0x3F), 0x80 ||| (n &&& 0x3F)]

/-- UTF-8 encoding of a string, as Python `s.encode()`. -/
def utf8Encode (s : String) : List Nat :=
  s.data.foldr (fun c acc => utf8Char c ++ acc) []

/-- Lowercase hex character of a nibble (ASCII `'0'` is 48, `'a'` is 97). -/
def hexChar (d : Nat) : Char :=
  if d < 10 then Char.ofNat (48 + d) else Char.ofNat (87 + d)

/-- Two lowercase hex characters of one byte. -/
def toHexPair (b : Nat) : List Char :=
  [hexChar (b / 16 % 16), hexChar (b % 16)]

/-- Python `hashlib.sha256(bs).hexdigest()` as a character list. -/
def hexdigest (bytes : List Nat) : List Char :=
  bytes.foldr (fun b acc => toHexPair b ++ acc) []

/-- Numeric value of one lowercase hex character (`int(c, 16)`); the default
case is unreachable on `hexdigest` output. -/
def hexVal : Char → Nat
  | '0' => 0 | '1' => 1 | '2' => 2 | '3' => 3 | '4' => 4 | '5' => 5 | '6' => 6
  | '7' => 7 | '8' => 8 | '9' => 9 | 'a' => 10 | 'b' => 11 | 'c' => 12
  | 'd' => 13 | 'e' => 14 | 'f' => 15 | _ => 0

/-! ## `_stable_score` (app/checks.py lines 53-56)

```python
def _stable_score(addr: str) -> int:
    h = hashlib.sha256(addr.encode()).hexdigest()
    raw = int(h[:2], 16)
    return round(raw / 255 * 100)
```

`raw / 255 * 100` is IEEE double arithmetic.  The exact rational value
`raw * 100 / 255 = 20 * raw / 51` is never a half-integer (it would require
`51 ∣ raw` which gives integer values), and its distance to the nearest
half-integer is at least `1/102`, far above the double rounding error, so
Python's `round` (nearest, ties-to-even) coincides with exact rounding to the
nearest integer, i.e. `(raw * 200 + 255) / 510` in integer division. -/
def stableScore (addr : String) : Nat :=
  let h := hexdigest (sha256 (utf8Encode addr))
  let raw := hexVal (h.getD 0 '0') * 16 + hexVal (h.getD 1 '0')
  (raw * 200 + 255) / 510

/-! ## Character classes of the address patterns (app/checks.py lines 16-44)

Every pattern in `NETWORKS` is of the form `^...$` and is used through
`re.match` on the stripped input, so it matches the full string (a stripped
string never ends in a newline, hence `$` is exactly end-of-input there).
Each regex is embedded as a total boolean matcher on the character list. -/

/-- `[ac-hj-np-z02-9]` — bech32 charset (bc1/ltc1 bodies). -/
def bech32C (c : Char) : Bool :=
  c = 'a' || ('c' ≤ c && c ≤ 'h') || ('j' ≤ c && c ≤ 'n') || ('p' ≤ c && c ≤ 'z') ||
  c = '0' || ('2' ≤ c && c ≤ '9')

/-- `[a-km-zA-HJ-NP-Z1-9]` (also written `[1-9A-HJ-NP-Za-km-z]`) — base58. -/
def base58C (c : Char) : Bool :=
  ('a' ≤ c && c ≤ 'k') || ('m' ≤ c && c ≤ 'z') || ('A' ≤ c && c ≤ 'H') ||
  ('J' ≤ c && c ≤ 'N') || ('P' ≤ c && c ≤ 'Z') || ('1' ≤ c && c ≤ '9')

/-- `[0-9a-z]`. -/
def lowAlnumC (c : Char) : Bool :=
  ('0' ≤ c && c ≤ '9') || ('a' ≤ c && c ≤ 'z')

/-- `[a-fA-F0-9]` — hex. -/
def hexC (c : Char) : Bool :=
  ('0' ≤ c && c ≤ '9') || ('a' ≤ c && c ≤ 'f') || ('A' ≤ c && c ≤ 'F')

/-- `[a-z0-9_\-\.]` — NEAR account charset. -/
def nearC (c : Char) : Bool :=
  ('a' ≤ c && c ≤ 'z') || ('0' ≤ c && c ≤ '9') || c = '_' || c = '-' || c = '.'

/-- `[A-Za-z0-9\-_]` — TON charset. -/
def tonC (c : Char) : Bool :=
  ('A' ≤ c && c ≤ 'Z') || ('a' ≤ c && c ≤ 'z') || ('0' ≤ c && c ≤ '9') ||
  c = '-' || c = '_'

/-- Whole list drawn from class `cs` with length in `[lo, hi]`:
embeds `[cs]{lo,hi}` anchored on both sides. -/
def allCS (cs : Char → Bool) (lo hi : Nat) (l : List Char) : Bool :=
  l.all cs && lo ≤ l.length && l.length ≤ hi

/-- Literal prefix `p`, then `[cs]{lo,hi}` up to the end. -/
def preCS (p : List Char) (cs : Char → Bool) (lo hi : Nat) (l : List Char) : Bool :=
  match stripPre p l with
  | some r => allCS cs lo hi r
  | none => false

/-- Literal prefix `p`, then `[cs]{lo,}` up to the end. -/
def preCSMin (p : List Char) (cs : Char → Bool) (lo : Nat) (l : List Char) : Bool :=
  match stripPre p l with
  | some r => r.all cs && lo ≤ r.length
  | none => false

/-- One leading character from class `first`, then `[cs]{lo,hi}`. -/
def clsCS (first : Char → Bool) (cs : Char → Bool) (lo hi : Nat) (l : List Char) : Bool :=
  match l with
  | [] => false
  | c :: r => first c && allCS cs lo hi r

/-! ## The ordered network table and `detect_network` (app/checks.py 16-51) -/

/-- `^(bc1[ac-hj-np-z02-9]{11,71}|[13][a-km-zA-HJ-NP-Z1-9]{25,34})$` -/
def btcM (l : List Char) : Bool :=
  preCS ("bc1").data bech32C 11 71 l || clsCS (fun c => c = '1' || c = '3') base58C 25 34 l

/-- `^(ltc1[ac-hj-np-z02-9]{11,71}|[LM3][a-km-zA-HJ-NP-Z1-9]{26,33})$` -/
def ltcM (l : List Char) : Bool :=
  preCS ("ltc1").data bech32C 11 71 l ||
  clsCS (fun c => c = 'L' || c = 'M' || c = '3') base58C 26 33 l

/-- `(q|p)[0-9a-z]{41}` part of the BCH pattern. -/
def bchBody (l : List Char) : Bool :=
  clsCS (fun c => c = 'q' || c = 'p') lowAlnumC 41 41 l

/-- `^(bitcoincash:)?(q|p)[0-9a-z]{41}$` — the optional group is tried with the
prefix consumed first, then (regex backtracking) without it. -/
def bchM (l : List Char) : Bool :=
  match stripPre ("bitcoincash:").data l with
  | some r => bchBody r || bchBody l
  | none => bchBody l

/-- `^[D9A][a-km-zA-HJ-NP-Z1-9]{25,34}$` -/
def dogeM (l : List Char) : Bool :=
  clsCS (fun c => c = 'D' || c = '9' || c = 'A') base58C 25 34 l

/-- `^0x[a-fA-F0-9]{40}$` — shared by all eight EVM-family rows. -/
def evmM (l : List Char) : Bool :=
  preCS ("0x").data hexC 40 40 l

/-- `^T[1-9A-HJ-NP-Za-km-z]{33}$` -/
def trxM (l : List Char) : Bool :=
  clsCS (fun c => c = 'T') base58C 33 33 l

/-- `^[1-9A-HJ-NP-Za-km-z]{32,44}$` -/
def solM (l : List Char) : Bool :=
  allCS base58C 32 44 l

/-- `^r[1-9A-HJ-NP-Za-km-z]{24,34}$` -/
def xrpM (l : List Char) : Bool :=
  clsCS (fun c => c = 'r') base58C 24 34 l

/-- `^(bnb1)[0-9a-z]{38}$` -/
def bnbM (l : List Char) : Bool :=
  preCS ("bnb1").data lowAlnumC 38 38 l

/-- `^(cosmos1)[0-9a-z]{38}$` -/
def atomM (l : List Char) : Bool :=
  preCS ("cosmos1").data lowAlnumC 38 38 l

/-- `^(addr1)[0-9a-z]{20,}$` -/
def adaM (l : List Char) : Bool :=
  preCSMin ("addr1").data lowAlnumC 20 l

/-- `^(1|1x)[0-9A-HJ-NP-Za-km-z]{47,48}$` -/
def dotM (l : List Char) : Bool :=
  preCS ("1").data base58C 47 48 l || preCS ("1x").data base58C 47 48 l

/-- `^[a-z0-9_\-\.]{2,64}\.near$` — body then the literal `.near` suffix. -/
def nearM (l : List Char) : Bool :=
  let k := l.length
  decide (5 ≤ k) && (l.drop (k - 5) = (".near").data) &&
  allCS nearC 2 64 (l.take (k - 5))

/-- `^(tz1|tz2|tz3|KT1)[1-9A-HJ-NP-Za-km-z]{33}$` -/
def xtzM (l : List Char) : Bool :=
  preCS ("tz1").data base58C 33 33 l || preCS ("tz2").data base58C 33 33 l ||
  preCS ("tz3").data base58C 33 33 l || preCS ("KT1").data base58C 33 33 l

/-- `^(EQ|UQ)[A-Za-z0-9\-_]{46,48}$` -/
def tonM (l : List Char) : Bool :=
  preCS ("EQ").data tonC 46 48 l || preCS ("UQ").data tonC 46 48 l

/-- One row of the `NETWORKS` table: display name, short code and the
matcher embedding the compiled regex. -/
structure Net where
  name : String
  code : String
  matcher : List Char → Bool

/-- The ordered `NETWORKS` list of app/checks.py lines 16-44 (first match
wins). -/
def NETWORKS : List Net :=
  [⟨"Bitcoin", "BTC", btcM⟩,
   ⟨"Litecoin", "LTC", ltcM⟩,
   ⟨"Bitcoin Cash", "BCH", bchM⟩,
   ⟨"Dogecoin", "DOGE", dogeM⟩,
   ⟨"Ethereum (Mainnet)", "ETH", evmM⟩,
   ⟨"BNB Smart Chain", "BSC", evmM⟩,
   ⟨"Polygon (MATIC)", "POLYGON", evmM⟩,
   ⟨"Arbitrum One", "ARB", evmM⟩,
   ⟨"Optimism", "OPT", evmM⟩,
   ⟨"Avalanche C-Chain", "AVAX-C", evmM⟩,
   ⟨"Fantom", "FTM", evmM⟩,
   ⟨"Cronos", "CRO", evmM⟩,
   ⟨"TRON (TRC-20)", "TRX", trxM⟩,
   ⟨"Solana", "SOL", solM⟩,
   ⟨"XRP (Ripple)", "XRP", xrpM⟩,
   ⟨"BNB Beacon (BEP-2)", "BNB", bnbM⟩,
   ⟨"Cosmos (ATOM)", "ATOM", atomM⟩,
   ⟨"Cardano", "ADA", adaM⟩,
   ⟨"Polkadot", "DOT", dotM⟩,
   ⟨"Near Protocol", "NEAR", nearM⟩,
   ⟨"Tezos", "XTZ", xtzM⟩,
   ⟨"TON", "TON", tonM⟩]

/-- `detect_network` (app/checks.py 46-51): strip, then first matching row. -/
def detect_network (address : String) : Option Net :=
  let a := pyStripL address.data
  NETWORKS.find? (fun n => n.matcher a)

/-! ## `check_evm_wallet` (app/sources.py 33-50) and `wallet_check`
(app/checks.py 58-97)

`check_evm_wallet` returns `{"ok": False, "error": "ETHERSCAN_API_KEY
missing"}` when no API key is configured; otherwise it performs two HTTP GETs
with **no** try/except, so any transport or JSON-decoding error raises out of
the coroutine.  On success it returns `ok: True` with `balance_wei` (from
`int(bal["result"])`, guarded: unparsable falls back to 0), `balance_native =
balance_wei / 1e18` and `tx_count` (length of the result list, 0 if the
`result` field is not a list).  Note `balance_native > 0 ↔ balance_wei > 0`
since dividing by the positive constant `1e18` preserves sign. -/

/-- Observed behaviour of the two explorer HTTP calls inside
`check_evm_wallet`. -/
structure EvmHttp where
  /-- a transport / JSON error raised by either `client.get(...)` or `.json()` -/
  raises : Bool
  /-- `int(bal.get("result", "0"))` if it parses, else `none` (code falls back to 0) -/
  bal_result : Option Int
  /-- length of the tx `result` list, `none` when `result` is not a list (code uses 0) -/
  tx_result_len : Option Nat

/-- What `await check_evm_wallet(...)` does, as seen by its caller. -/
inductive EvmOutcome where
  /-- an exception escapes `check_evm_wallet` (nothing catches it there) -/
  | raise
  /-- a returned `{"ok": False, "error": ...}` dict -/
  | fail (error : String)
  /-- a returned `{"ok": True, ...}` dict -/
  | success (balance_wei : Int) (tx_count : Nat)
  deriving DecidableEq

/-- `check_evm_wallet` (app/sources.py 33-50), with the network behaviour as
an explicit parameter. -/
def check_evm_wallet (etherscan_api_key : String) (http : EvmHttp) : EvmOutcome :=
  if etherscan_api_key = "" then .fail "ETHERSCAN_API_KEY missing"
  else if http.raises then .raise
  else .success (http.bal_result.getD 0) (http.tx_result_len.getD 0)

/-- The evidence strings built by `wallet_check`, kept symbolic (the claims
never depend on the exact float formatting of the balance). -/
inductive Signal where
  | detectedNetwork (name : String)      -- "Detected network: {net.name}"
  | balance (balance_wei : Int)          -- "Balance: {...:.6f} native"
  | transactions (n : Nat)               -- "Transactions: {tx_count}"
  | evmCheckFailed                       -- "EVM explorer check failed"
  | suspiciousHeuristics                 -- "Suspicious heuristics"
  deriving DecidableEq

/-- The `{"ok": True, ...}` payload of `wallet_check`. -/
structure WalletVerdict where
  address : String
  network : String
  code : String
  score : Nat
  label : String
  color : String
  summary : String
  signals : List Signal
  tips : List String
  deriving DecidableEq

/-- Result of `await wallet_check(address)` as seen by the route handler. -/
inductive WalletResult where
  /-- `{"ok": False, "error": ...}` -/
  | invalid (error : String)
  /-- `{"ok": True, ...}` -/
  | ok (v : WalletVerdict)
  /-- an uncaught exception propagates out of `wallet_check` -/
  | exn
  deriving DecidableEq

/-- The set comprehension `{"ETH","BSC","POLYGON","ARB","OPT","AVAX-C","FTM","CRO"}`
of app/checks.py line 68. -/
def EVM_CODES : List String :=
  ["ETH", "BSC", "POLYGON", "ARB", "OPT", "AVAX-C", "FTM", "CRO"]

/-- app/checks.py line 62: the invalid-address error, listing the supported
networks. -/
def INVALID_ADDRESS_MSG : String :=
  "Invalid address. Supported: BTC/LTC/BCH/DOGE, EVM (0x…), TRON, Solana, XRP, BNB Beacon, Cosmos, Cardano, Polkadot, NEAR, Tezos, TON."

/-- app/checks.py lines 78-93: threshold scheme A plus summary/tips, with the
detection signal inserted at position 0 for Safe and Caution, and the generic
fallback signal for Risk when no signal was collected. -/
def finishWallet (addr : String) (net : Net) (score : Nat) (signals : List Signal) :
    WalletVerdict :=
  if 80 ≤ score then
    { address := addr, network := net.name, code := net.code, score := score
      label := "Safe", color := "green"
      summary := "High reputation. No obvious scam patterns detected."
      signals := Signal.detectedNetwork net.name :: signals
      tips := ["Double-check recipient", "Keep seed phrase offline"] }
  else if 50 ≤ score then
    { address := addr, network := net.name, code := net.code, score := score
      label := "Caution", color := "yellow"
      summary := "Some risk factors. Consider a small test transfer."
      signals := Signal.detectedNetwork net.name :: signals
      tips := ["Send a small test first", "Cross-check on other sources"] }
  else
    { address := addr, network := net.name, code := net.code, score := score
      label := "Risk", color := "red"
      summary := "High probability of scam. Avoid large transfers."
      signals := if signals = [] then [Signal.suspiciousHeuristics] else signals
      tips := ["Do not send large amounts", "Ask for an alternative address"] }

/-- `wallet_check` (app/checks.py 58-97).  `evm` is the outcome of the
`await check_evm_wallet(...)` call (consulted only for EVM-family codes). -/
def wallet_check (address : String) (evm : EvmOutcome) : WalletResult :=
  let addr := pyStrip address
  match detect_network addr with
  | none => .invalid INVALID_ADDRESS_MSG
  | some net =>
    let score := stableScore addr
    if net.code ∈ EVM_CODES then
      match evm with
      | .raise => .exn
      | .success balance_wei tx_count =>
          let signals := [Signal.balance balance_wei, Signal.transactions tx_count]
          let score := if 0 < balance_wei || 0 < tx_count then max score 60 else score
          .ok (finishWallet addr net score signals)
      | .fail _ => .ok (finishWallet addr net score [Signal.evmCheckFailed])
    else
      .ok (finishWallet addr net score [])

/-! ## The quota ledger (app/database.py)

The `users` row of one identity, restricted to the fields the quota logic
touches.  `subscription` is the stored integer (0/1, `NULL` read as 0),
`subscription_until` a Unix timestamp or `NULL`, `wallet_checks_today` the
daily counter, `last_wallet_check` the ISO day string of the last reset or
`NULL` for a freshly created user.  The surrounding state is `Option UserRow`:
`none` models an email with no row in the table (SELECT returns no row and
UPDATE matches nothing). -/
structure UserRow where
  subscription : Nat
  subscription_until : Option Int
  wallet_checks_today : Nat
  last_wallet_check : Option String
  deriving DecidableEq

/-- `MAX_FREE_WALLET_CHECKS` (app/database.py line 7, default "3"). -/
def MAX_FREE_WALLET_CHECKS : Nat := 3

/-- `has_active_subscription` (app/database.py 50-55); `now` is `int(time.time())`. -/
def has_active_subscription (row : Option UserRow) (now : Int) : Bool :=
  match row with
  | none => false
  | some r => r.subscription = 1 && now < r.subscription_until.getD 0

/-- `_reset_daily_if_needed` (app/database.py 80-88): zero the counter and
stamp today when the stored day differs (SQL `NULL != 'd'` is how a fresh row
behaves through Python's `!=` on `None`). -/
def resetDailyIfNeeded (row : Option UserRow) (today : String) : Option UserRow :=
  match row with
  | none => none
  | some r =>
    if r.last_wallet_check ≠ some today then
      some { r with wallet_checks_today := 0, last_wallet_check := some today }
    else
      some r

/-- `get_wallet_usage` (app/database.py 90-97): `(used, left)` plus the row
state the call leaves behind (the lazy reset is committed). -/
def get_wallet_usage (row : Option UserRow) (today : String) :
    (Nat × Int) × Option UserRow :=
  let row1 := resetDailyIfNeeded row today
  let used : Nat := match row1 with | some r => r.wallet_checks_today | none => 0
  ((used, max 0 ((MAX_FREE_WALLET_CHECKS : Int) - used)), row1)

/-- Return triple of `try_consume_wallet_check`: `(allowed, left_after, error)`;
`left_after = -1` is the unlimited sentinel of the subscription path. -/
structure ConsumeResult where
  allowed : Bool
  left_after : Int
  error : Option String
  deriving DecidableEq

/-- app/database.py line 108: the quota error message (its "5/day" wording is
the defect §9 of the spec flags; the configured limit is 3). -/
def LIMIT_MSG : String := "Free limit reached (5/day)."

/-- Line 105: `used = int(row["wallet_checks_today"] if row else 0)` — the
counter as read after the lazy reset (a missing row reads as 0). -/
def usedAfterReset (row : Option UserRow) (today : String) : Nat :=
  match resetDailyIfNeeded row today with
  | some r => r.wallet_checks_today
  | none => 0

/-- `try_consume_wallet_check` (app/database.py 99-113), sequential semantics:
result plus the committed row state.  The final `Option.map` is the
`UPDATE ... WHERE email=?` of line 110: it writes only if the row exists. -/
def try_consume_wallet_check (row : Option UserRow) (today : String) (now : Int) :
    ConsumeResult × Option UserRow :=
  if has_active_subscription row now then
    (⟨true, -1, none⟩, row)
  else
    let row1 := resetDailyIfNeeded row today
    let used := usedAfterReset row today
    if MAX_FREE_WALLET_CHECKS ≤ used then
      (⟨false, 0, some LIMIT_MSG⟩, row1)
    else
      (⟨true, max 0 ((MAX_FREE_WALLET_CHECKS : Int) - ((used + 1 : Nat) : Int)), none⟩,
       row1.map fun r => { r with wallet_checks_today := used + 1 })

/-! ## Interleaved executions of `try_consume_wallet_check` (claim C9)

Each call runs on its own sqlite connection and issues, for a non-subscribed
identity whose row is already stamped with today (so `_reset_daily_if_needed`
performs no write), two racy statements:

* the `SELECT wallet_checks_today` of line 103 — an atomic read, and
* the `UPDATE ... SET wallet_checks_today=used+1` of line 110 — an atomic
  write of the value derived from that call's own earlier read, executed only
  when the read value was below the limit.

There is no lock, no transaction spanning both statements and no
`UPDATE ... SET x = x + 1`-style atomic increment, so reads of distinct calls
may all happen before any write.  The model below executes an arbitrary
schedule of such events over a shared counter. -/

/-- One atomic database event of call `i`. -/
inductive QEv where
  | read (i : Nat)
  | write (i : Nat)
  deriving DecidableEq

/-- Shared counter plus per-call registers: `reg i` is the value call `i`
read (none before its SELECT), `outcome i` the decision it reached. -/
structure QState where
  count : Nat
  reg : List (Option Nat)
  outcome : List (Option Bool)
  deriving DecidableEq

/-- Initial state for `n` in-flight calls over a zeroed counter. -/
def qInit (n : Nat) : QState :=
  ⟨0, List.replicate n none, List.replicate n none⟩

/-- Execute one event. -/
def qStep (s : QState) (e : QEv) : QState :=
  match e with
  | .read i => { s with reg := s.reg.set i (some s.count) }
  | .write i =>
    match s.reg.getD i none with
    | none => s
    | some v =>
      if v < MAX_FREE_WALLET_CHECKS then
        { s with count := v + 1, outcome := s.outcome.set i (some true) }
      else
        { s with outcome := s.outcome.set i (some false) }

/-- Run a schedule. -/
def qRun (n : Nat) (sched : List QEv) : QState :=
  sched.foldl qStep (qInit n)

/-- Number of calls that returned `allowed = True`. -/
def qSuccesses (s : QState) : Nat :=
  s.outcome.countP (fun o => o = some true)

/-- The serialized schedule for `n` calls: each call's read is immediately
followed by its write. -/
def seqSched (n : Nat) : List QEv :=
  (List.range n).foldr (fun i acc => QEv.read i :: QEv.write i :: acc) []

/-- The racy schedule: every call's SELECT happens before any UPDATE. -/
def raceSched (n : Nat) : List QEv :=
  (List.range n).map QEv.read ++ (List.range n).map QEv.write

/-! ## Link patterns of app/sources.py lines 228-230

```python
TG_USER_RE = re.compile(r"(?:https?://)?(?:t\.me|telegram\.me)/([A-Za-z0-9_]{3,})$")
TG_JOIN_RE = re.compile(r"(?:https?://)?(?:t\.me|telegram\.me)/(?:\+|joinchat/)([A-Za-z0-9_\-]{6,})")
DC_INV_RE = re.compile(r"(?:https?://)?(?:discord\.gg|discord\.com/invite)/([A-Za-z0-9\-]+)")
```

All three are used through `re.search`: the leftmost position at which the
pattern (with backtracking) matches wins, and the greedy character-class
captures take the maximal run.  `searchPos` below tries every start position
left to right; `withScheme` implements the optional-scheme backtracking
(scheme consumed first, then retried unconsumed). -/

/-- `[A-Za-z0-9_]` — Telegram username charset. -/
def tgUserC (c : Char) : Bool :=
  ('A' ≤ c && c ≤ 'Z') || ('a' ≤ c && c ≤ 'z') || ('0' ≤ c && c ≤ '9') || c = '_'

/-- `[A-Za-z0-9_\-]` — Telegram invite-code charset. -/
def tgJoinC (c : Char) : Bool :=
  tgUserC c || c = '-'

/-- `[A-Za-z0-9\-]` — Discord invite-code charset. -/
def dcC (c : Char) : Bool :=
  ('A' ≤ c && c ≤ 'Z') || ('a' ≤ c && c ≤ 'z') || ('0' ≤ c && c ≤ '9') || c = '-'

/-- Leftmost-position regex search: try the position matcher `f` at every
suffix, left to right (including the empty suffix, where all three patterns
fail). -/
def searchPos (f : List Char → Option (List Char)) : List Char → Option (List Char)
  | [] => f []
  | c :: cs => (f (c :: cs)).orElse (fun _ => searchPos f cs)

/-- `(?:https?://)?rest` at one position: the greedy optional group first
consumes the scheme, and on failure backtracks to consuming nothing. -/
def withScheme (core : List Char → Option (List Char)) (s : List Char) :
    Option (List Char) :=
  match stripPre ("https://").data s with
  | some r => (core r).orElse (fun _ => core s)
  | none =>
    match stripPre ("http://").data s with
    | some r => (core r).orElse (fun _ => core s)
    | none => core s

/-- `([A-Za-z0-9\-]+)` — greedy, at least one character. -/
def dcCode (r : List Char) : Option (List Char) :=
  let run := r.takeWhile dcC
  if 1 ≤ run.length then some run else none

/-- `(?:discord\.gg|discord\.com/invite)/(...)` at one position. -/
def dcCore (s : List Char) : Option (List Char) :=
  match stripPre ("discord.gg/").data s with
  | some r => dcCode r
  | none =>
    match stripPre ("discord.com/invite/").data s with
    | some r => dcCode r
    | none => none

/-- `DC_INV_RE.search(u)`, returning the captured invite code. -/
def dcSearch (u : List Char) : Option (List Char) :=
  searchPos (withScheme dcCore) u

/-- `([A-Za-z0-9_\-]{6,})` — greedy, at least six characters. -/
def tgJoinTail (r : List Char) : Option (List Char) :=
  let run := r.takeWhile tgJoinC
  if 6 ≤ run.length then some run else none

/-- `(?:\+|joinchat/)(...)` after the host. -/
def tgJoinKind (r : List Char) : Option (List Char) :=
  match stripPre ("+").data r with
  | some r2 => tgJoinTail r2
  | none =>
    match stripPre ("joinchat/").data r with
    | some r2 => tgJoinTail r2
    | none => none

/-- `(?:t\.me|telegram\.me)/` then the invite part, at one position. -/
def tgJoinHost (s : List Char) : Option (List Char) :=
  match stripPre ("t.me/").data s with
  | some r => tgJoinKind r
  | none =>
    match stripPre ("telegram.me/").data s with
    | some r => tgJoinKind r
    | none => none

/-- `TG_JOIN_RE.search(u)`. -/
def tgJoinSearch (u : List Char) : Option (List Char) :=
  searchPos (withScheme tgJoinHost) u

/-- `([A-Za-z0-9_]{3,})$` — the capture must reach the end of the input (or
stop just before one trailing newline, which `$` also accepts). -/
def tgUserTail (r : List Char) : Option (List Char) :=
  let core := if r.getLast? = some '\n' then r.dropLast else r
  if core.all tgUserC && 3 ≤ core.length then some core else none

/-- `(?:t\.me|telegram\.me)/` then the anchored username, at one position. -/
def tgUserHost (s : List Char) : Option (List Char) :=
  match stripPre ("t.me/").data s with
  | some r => tgUserTail r
  | none =>
    match stripPre ("telegram.me/").data s with
    | some r => tgUserTail r
    | none => none

/-- `TG_USER_RE.search(u)`, returning the captured username. -/
def tgUserSearch (u : List Char) : Option (List Char) :=
  searchPos (withScheme tgUserHost) u

/-! ## `_label_pack` and `group_quick_check` (app/sources.py 233-390) -/

/-- `_label_pack` (app/sources.py 233-238): the link-path score→label scheme. -/
def labelPack (r : Nat) : String × String × String :=
  if 70 ≤ r then ("Risk", "red", "High probability of invalid or unsafe link.")
  else if 40 ≤ r then ("Caution", "yellow", "Neutral risk level.")
  else ("Safe", "green", "No obvious red flags found.")

/-- Observed Discord invite-API response (`GET /api/v9/invites/{code}`):
status plus `int(data.get("approximate_member_count") or 0)` and the same for
presence, read only on status 200. -/
structure DcResp where
  status : Nat
  members : Nat
  presence : Nat
  deriving DecidableEq

/-- Observed behaviour of the Telegram profile fetch (`GET https://t.me/{u}`):
either an exception inside the `try` block, or a response with status and
body text. -/
inductive TgFetch where
  | exn
  | resp (status : Nat) (text : String)
  deriving DecidableEq

/-- The evidence strings of `group_quick_check`, kept symbolic. -/
inductive GSignal where
  | detectedPlatform (p : String)   -- "Detected platform: {p}"
  | dcInviteNotFound                -- "Discord API: invite not found (404)"
  | dcMembers (approx online : Nat) -- "Members ~ {approx}, Online ~ {online}"
  | tgInvitePattern                 -- "Invite link pattern (+/joinchat)"
  | tgNetworkFallback               -- "Network error — mannequin fallback"
  | tgUserNotFound (username : String) -- "Username @{u} not found on t.me"
  | tgChannelMarkers                -- "Channel/group markers on page"
  | tgUserReachable                 -- "Username page reachable — treated as personal account"
  deriving DecidableEq

/-- The `{"ok": True, ...}` payload of `group_quick_check`; `type?` is the
optional `"type"` key (absent on the Discord verdicts). -/
structure GroupVerdict where
  platform : String
  type? : Option String
  url : String
  risk : Nat
  label : String
  color : String
  summary : String
  signals : List GSignal
  tips : List String
  deriving DecidableEq

/-- Result of `await group_quick_check(url)`. -/
inductive GroupResult where
  /-- `{"ok": False, "error": ...}` -/
  | err (error : String)
  /-- `{"ok": True, ...}` -/
  | ok (v : GroupVerdict)
  deriving DecidableEq

/-- app/sources.py line 302: the no-pattern error message. -/
def INVALID_LINK_MSG : String :=
  "Provide a valid Telegram link (t.me/<username> or t.me/+invite)."

/-- The four channel/group markers of app/sources.py line 360. -/
def CHAT_MARKERS : List String :=
  ["tgme_channel_history", "tgme_channel_info", "join channel", "join group"]

/-- app/sources.py line 343: the not-found classifier over status and the
lowercased page text (`"not found"` subsumes the other two text markers). -/
def tgNotFound (status : Nat) (t : List Char) : Bool :=
  status = 404 || status = 410 ||
  containsSub ("was not found").data t ||
  containsSub ("page not found").data t ||
  containsSub ("not found").data t

/-- app/sources.py line 360: `any(s in text for s in (...))`. -/
def tgIsChat (t : List Char) : Bool :=
  CHAT_MARKERS.any (fun m => containsSub m.data t)

/-- `group_quick_check` (app/sources.py 241-390).  `dc` is the Discord invite
API response (consulted only when the Discord pattern matches), `tg` the
Telegram profile fetch (consulted only on the username path). -/
def group_quick_check (url : String) (dc : DcResp) (tg : TgFetch) : GroupResult :=
  let u := pyStripL url.data
  if u = [] then .err "Empty link."
  else
    match dcSearch u with
    | some _ =>
      if dc.status = 404 then
        .ok { platform := "Discord", type? := none, url := String.mk u, risk := 85
              label := "Risk", color := "red"
              summary := "Discord invite is invalid or expired."
              signals := [.detectedPlatform "Discord", .dcInviteNotFound]
              tips := ["Ask admins for a fresh invite", "Check official site/socials for links"] }
      else if dc.status ≠ 200 then
        .ok { platform := "Discord", type? := none, url := String.mk u, risk := 55
              label := "Caution", color := "yellow"
              summary := "Discord API returned " ++ toString dc.status
              signals := [.detectedPlatform "Discord"]
              tips := ["Try again later"] }
      else
        let risk := if 100 ≤ dc.members then 50 else if dc.members < 10 then 75 else 55
        let lp := labelPack risk
        .ok { platform := "Discord", type? := none, url := String.mk u, risk := risk
              label := lp.1, color := lp.2.1, summary := lp.2.2
              signals := [.detectedPlatform "Discord", .dcMembers dc.members dc.presence]
              tips := ["Check pinned rules and roles", "Do not DM unknown users"] }
    | none =>
      match tgJoinSearch u, tgUserSearch u with
      | none, none => .err INVALID_LINK_MSG
      | some _, _ =>
        let lp := labelPack 50
        .ok { platform := "Telegram", type? := some "invite", url := String.mk u, risk := 50
              label := lp.1, color := lp.2.1
              summary := "Group/Channel (invite)"
              signals := [.detectedPlatform "Telegram", .tgInvitePattern]
              tips := ["Open in Telegram app and verify admins"] }
      | none, some username =>
        match tg with
        | .exn =>
          let lp := labelPack 45
          .ok { platform := "Telegram", type? := some "user", url := String.mk u, risk := 45
                label := lp.1, color := lp.2.1
                summary := "Personal account"
                signals := [.detectedPlatform "Telegram", .tgNetworkFallback]
                tips := ["Open in Telegram app to verify profile"] }
        | .resp status text =>
          let t := text.data.map Char.toLower
          if tgNotFound status t then
            let lp := labelPack 85
            .ok { platform := "Telegram", type? := some "user_or_chat_missing"
                  url := String.mk u, risk := 85
                  label := lp.1, color := lp.2.1
                  summary := "User not found"
                  signals := [.detectedPlatform "Telegram", .tgUserNotFound (String.mk username)]
                  tips := ["Check spelling or share a correct link"] }
          else if tgIsChat t then
            let lp := labelPack 50
            .ok { platform := "Telegram", type? := some "chat", url := String.mk u, risk := 50
                  label := lp.1, color := lp.2.1
                  summary := "Group/Channel"
                  signals := [.detectedPlatform "Telegram", .tgChannelMarkers]
                  tips := ["Open in Telegram app and verify admins"] }
          else
            let lp := labelPack 45
            .ok { platform := "Telegram", type? := some "user", url := String.mk u, risk := 45
                  label := lp.1, color := lp.2.1
                  summary := "Personal account"
                  signals := [.detectedPlatform "Telegram", .tgUserReachable]
                  tips := ["Open in Telegram app to verify profile"] }

/-! ## Spec-side shape/threshold definitions used only in theorem statements -/

/-- The shape `0x` followed by exactly 40 hex digits (the spec's description
of an EVM-family address). -/
def isEthShape : List Char → Bool
  | c0 :: c1 :: t => c0 = '0' && c1 = 'x' && t.all hexC && decide (t.length = 40)
  | _ => false

/-- Threshold scheme A of the spec (§4.5), as stated there: the wallet-path
score→(label, color, summary) map. -/
def walletTier (s : Nat) : String × String × String :=
  if 80 ≤ s then ("Safe", "green", "High reputation. No obvious scam patterns detected.")
  else if 50 ≤ s then ("Caution", "yellow", "Some risk factors. Consider a small test transfer.")
  else ("Risk", "red", "High probability of scam. Avoid large transfers.")

/-- Concrete verdict used by witnesses: the output of
`wallet_check "0xaaa…a" (.success 0 5)` (baseline 19, floored to 60). -/
def exampleEvmVerdict : WalletVerdict :=
  { address := "0xaaaaaaaaaaaaaaaaaaaaaaaaaaaaaaaaaaaaaaaa"
    network := "Ethereum (Mainnet)", code := "ETH", score := 60
    label := "Caution", color := "yellow"
    summary := "Some risk factors. Consider a small test transfer."
    signals := [Signal.detectedNetwork "Ethereum (Mainnet)",
      Signal.balance 0, Signal.transactions 5]
    tips := ["Send a small test first", "Cross-check on other sources"] }

/-- Concrete verdict used by witnesses: output of
`group_quick_check "https://t.me/+abcdef123" _ _` (Telegram invite path). -/
def exampleInviteVerdict : GroupVerdict :=
  { platform := "Telegram", type? := some "invite", url := "https://t.me/+abcdef123"
    risk := 50, label := "Caution", color := "yellow"
    summary := "Group/Channel (invite)"
    signals := [.detectedPlatform "Telegram", .tgInvitePattern]
    tips := ["Open in Telegram app and verify admins"] }

/-- Concrete verdict used by witnesses: output of
`group_quick_check "https://t.me/realuser123" _ (.resp 200 "profile page")`
(Telegram personal-account fallthrough). -/
def exampleUserVerdict : GroupVerdict :=
  { platform := "Telegram", type? := some "user", url := "https://t.me/realuser123"
    risk := 45, label := "Caution", color := "yellow"
    summary := "Personal account"
    signals := [.detectedPlatform "Telegram", .tgUserReachable]
    tips := ["Open in Telegram app to verify profile"] }

/-! # Theorems -/

/-- Sanity check of the SHA-256 embedding against the FIPS 180-4 test
vector SHA-256("abc"). -/
theorem sha256_abc :
    hexdigest (sha256 (utf8Encode "abc")) =
      ("ba7816bf8f01cfea414140de5dae2223b00361a396177a9cb410ff61f20015ad").data := by
  decide

/-- Helper: `hexVal` never exceeds 15. -/
theorem hexVal_le (c : Char) : hexVal c ≤ 15 := by
  unfold hexVal
  split <;> omega

/-- C7: `baseline_score` (`_stable_score`, app/checks.py 53-56) is a pure
function of the identifier string alone — the embedding takes no state, time
or caller input — and its digest-prefix rescaling always lands in 0..100
(the lower bound is inherent to the `Nat` codomain). -/
theorem stable_score_deterministic_in_range (a : String) :
    stableScore a ≤ 100 ∧ ∀ b : String, b = a → stableScore b = stableScore a := by
  constructor
  · have h0 := hexVal_le ((hexdigest (sha256 (utf8Encode a))).getD 0 '0')
    have h1 := hexVal_le ((hexdigest (sha256 (utf8Encode a))).getD 1 '0')
    simp only [stableScore]
    omega
  · intro b hb
    rw [hb]

/-- Witness for C7 at the concrete identifier "abc" (score 73). -/
theorem stable_score_deterministic_in_range_witness :
    stableScore "abc" ≤ 100 ∧ stableScore "abc" = stableScore "abc" :=
  ⟨(stable_score_deterministic_in_range "abc").1,
   (stable_score_deterministic_in_range "abc").2 "abc" rfl⟩

/-- Helper: the day-rollover computation of `try_consume_wallet_check` — a
row whose stored day differs from today is reset and then consumed to 1. -/
theorem try_consume_rollover (r : UserRow) (today : String) (now : Int)
    (hne : r.last_wallet_check ≠ some today)
    (h : has_active_subscription (some r) now = false) :
    try_consume_wallet_check (some r) today now =
      (⟨true, (MAX_FREE_WALLET_CHECKS : Int) - 1, none⟩,
       some { r with wallet_checks_today := 1, last_wallet_check := some today }) := by
  have hreset : resetDailyIfNeeded (some r) today =
      some { r with wallet_checks_today := 0, last_wallet_check := some today } := by
    simp [resetDailyIfNeeded, hne]
  have hused : usedAfterReset (some r) today = 0 := by
    simp [usedAfterReset, hreset]
  simp only [try_consume_wallet_check, if_neg (by simp [h] :
    ¬ has_active_subscription (some r) now = true)]
  rw [hused, hreset]
  simp [MAX_FREE_WALLET_CHECKS]

/-- C1: behaviour of `try_consume_wallet_check` (app/database.py 99-113):
subscription bypass with the `-1` unlimited sentinel and untouched row;
limit-reached refusal `(False, 0, "Free limit reached (5/day).")` (a message
containing "limit reached") leaving the counter unchanged after the lazy
reset; increment-and-persist success returning `limit - new_count`; and the
rollover case: any row whose stored day differs from today consumes
successfully and ends with counter 1. -/
theorem try_consume_spec (row : Option UserRow) (today : String) (now : Int) :
    (has_active_subscription row now = true →
      try_consume_wallet_check row today now = (⟨true, -1, none⟩, row)) ∧
    (has_active_subscription row now = false →
      MAX_FREE_WALLET_CHECKS ≤ usedAfterReset row today →
      try_consume_wallet_check row today now =
        (⟨false, 0, some LIMIT_MSG⟩, resetDailyIfNeeded row today) ∧
      containsSub ("limit reached").data LIMIT_MSG.data = true) ∧
    (has_active_subscription row now = false →
      usedAfterReset row today < MAX_FREE_WALLET_CHECKS →
      (try_consume_wallet_check row today now).1 =
        ⟨true, (MAX_FREE_WALLET_CHECKS : Int) - ((usedAfterReset row today + 1 : Nat) : Int), none⟩ ∧
      ∀ r, resetDailyIfNeeded row today = some r →
        (try_consume_wallet_check row today now).2 =
          some { r with wallet_checks_today := r.wallet_checks_today + 1 }) ∧
    (∀ r, row = some r → r.last_wallet_check ≠ some today →
      has_active_subscription row now = false →
      try_consume_wallet_check row today now =
        (⟨true, (MAX_FREE_WALLET_CHECKS : Int) - 1, none⟩,
         some { r with wallet_checks_today := 1, last_wallet_check := some today })) := by
  have hmax : usedAfterReset row today < MAX_FREE_WALLET_CHECKS →
      max 0 ((MAX_FREE_WALLET_CHECKS : Int) - ((usedAfterReset row today + 1 : Nat) : Int)) =
        (MAX_FREE_WALLET_CHECKS : Int) - ((usedAfterReset row today + 1 : Nat) : Int) := by
    intro hlt
    unfold MAX_FREE_WALLET_CHECKS at hlt ⊢
    omega
  refine ⟨fun h => by simp [try_consume_wallet_check, h], fun h hle => ?_, fun h hlt => ?_, ?_⟩
  · refine ⟨?_, by decide⟩
    simp only [try_consume_wallet_check, if_neg (by simp [h] :
      ¬ has_active_subscription row now = true)]
    rw [if_pos hle]
  · constructor
    · simp only [try_consume_wallet_check, if_neg (by simp [h] :
        ¬ has_active_subscription row now = true)]
      rw [if_neg (by omega), hmax hlt]
    · intro r hr
      simp only [try_consume_wallet_check, if_neg (by simp [h] :
        ¬ has_active_subscription row now = true)]
      rw [if_neg (by omega)]
      have hused : usedAfterReset row today = r.wallet_checks_today := by
        simp [usedAfterReset, hr]
      simp [hr, hused]
  · intro r hrow hne h
    subst hrow
    exact try_consume_rollover r today now hne h

/-- Witness for C1: a counter at the limit (3) stamped with day D consumes
successfully on day D+1 and ends at 1 — via the rollover clause of
`try_consume_spec`. -/
theorem try_consume_spec_witness :
    try_consume_wallet_check (some ⟨0, none, 3, some "2026-10-11"⟩) "2026-10-12" 100 =
      (⟨true, (MAX_FREE_WALLET_CHECKS : Int) - 1, none⟩,
       some ⟨0, none, 1, some "2026-10-12"⟩) :=
  (try_consume_spec (some ⟨0, none, 3, some "2026-10-11"⟩) "2026-10-12" 100).2.2.2
    ⟨0, none, 3, some "2026-10-11"⟩ rfl (by decide) (by decide)

/-- C8 counterexample: for an identity with **no** stored row, the first
`try_consume_wallet_check` reports success (`used` falls back to 0) but its
`UPDATE ... WHERE email=?` matches nothing, so no counter record appears and
`get_wallet_usage` afterwards reports 0, not 1. -/
theorem quota_no_row_counterexample :
    try_consume_wallet_check none "2026-10-12" 100 = (⟨true, 2, none⟩, none) ∧
    (get_wallet_usage none "2026-10-12").1 = (0, 3) ∧
    (get_wallet_usage none "2026-10-12").2 = none := by
  decide

/-- C8 (amended): for a stored user row whose quota fields are still at their
creation defaults (`wallet_checks_today = 0`, `last_wallet_check = NULL`) and
with no active subscription, the first quota check stamps the day, persists
the consumed use, and a subsequent usage read that day reports count 1; for
an identity with no stored row, the consume succeeds without persisting
anything and a subsequent read reports 0. -/
theorem quota_first_check_amended (sub : Nat) (until? : Option Int)
    (today : String) (now : Int)
    (h : has_active_subscription (some ⟨sub, until?, 0, none⟩) now = false) :
    ((try_consume_wallet_check (some ⟨sub, until?, 0, none⟩) today now).1.allowed = true ∧
     (get_wallet_usage (try_consume_wallet_check (some ⟨sub, until?, 0, none⟩) today now).2
        today).1.1 = 1) ∧
    ((try_consume_wallet_check none today now).1.allowed = true ∧
     (try_consume_wallet_check none today now).2 = none ∧
     (get_wallet_usage none today).1.1 = 0) := by
  have hstep : try_consume_wallet_check (some ⟨sub, until?, 0, none⟩) today now =
      (⟨true, (MAX_FREE_WALLET_CHECKS : Int) - 1, none⟩,
       some ⟨sub, until?, 1, some today⟩) :=
    try_consume_rollover ⟨sub, until?, 0, none⟩ today now (by simp) h
  refine ⟨⟨by rw [hstep], ?_⟩, by simp [try_consume_wallet_check, has_active_subscription,
    usedAfterReset, resetDailyIfNeeded, get_wallet_usage, MAX_FREE_WALLET_CHECKS]⟩
  rw [hstep]
  simp [get_wallet_usage, resetDailyIfNeeded]

/-- Witness for C8's amended theorem at a concrete fresh row. -/
theorem quota_first_check_amended_witness :
    ((try_consume_wallet_check (some ⟨0, none, 0, none⟩) "2026-10-12" 100).1.allowed = true ∧
     (get_wallet_usage (try_consume_wallet_check (some ⟨0, none, 0, none⟩) "2026-10-12" 100).2
        "2026-10-12").1.1 = 1) ∧
    ((try_consume_wallet_check none "2026-10-12" 100).1.allowed = true ∧
     (try_consume_wallet_check none "2026-10-12" 100).2 = none ∧
     (get_wallet_usage none "2026-10-12").1.1 = 0) :=
  quota_first_check_amended 0 none "2026-10-12" 100 (by decide)

/-- Helper: `finishWallet` keeps the score it is given and derives label,
color and summary from it by threshold scheme A. -/
theorem finishWallet_tier (a : String) (n : Net) (s : Nat) (sg : List Signal) :
    (finishWallet a n s sg).score = s ∧
    ((finishWallet a n s sg).label, (finishWallet a n s sg).color,
      (finishWallet a n s sg).summary) = walletTier s := by
  unfold finishWallet walletTier
  split_ifs <;> simp

/-- Helper: every `ok` result of `wallet_check` is a `finishWallet` verdict. -/
theorem wallet_check_ok_inv (address : String) (evm : EvmOutcome) (v : WalletVerdict)
    (h : wallet_check address evm = .ok v) :
    ∃ net s sg, detect_network (pyStrip address) = some net ∧
      v = finishWallet (pyStrip address) net s sg := by
  unfold wallet_check at h
  cases hd : detect_network (pyStrip address) with
  | none =>
    simp only [hd] at h
    cases h
  | some net =>
    simp only [hd] at h
    by_cases he : net.code ∈ EVM_CODES
    · rw [if_pos he] at h
      cases evm with
      | raise => simp at h
      | fail e => exact ⟨net, _, _, rfl, by simpa using h.symm⟩
      | success bw tx => exact ⟨net, _, _, rfl, by simpa using h.symm⟩
    · rw [if_neg he] at h
      exact ⟨net, _, _, rfl, by simpa using h.symm⟩

/-- C2: in every `ok` verdict of `wallet_check`, label, color and summary are
the threshold-scheme-A image of the final score: ≥80 Safe/green, 50..79
Caution/yellow, <50 Risk/red; in particular scores 80, 79, 50, 49 map to
Safe, Caution, Caution, Risk. -/
theorem wallet_labels_from_score (address : String) (evm : EvmOutcome)
    (v : WalletVerdict) (h : wallet_check address evm = .ok v) :
    (v.label, v.color, v.summary) = walletTier v.score ∧
    (80 ≤ v.score → v.label = "Safe" ∧ v.color = "green") ∧
    (50 ≤ v.score → v.score < 80 → v.label = "Caution" ∧ v.color = "yellow") ∧
    (v.score < 50 → v.label = "Risk" ∧ v.color = "red") ∧
    (v.score = 80 → v.label = "Safe") ∧ (v.score = 79 → v.label = "Caution") ∧
    (v.score = 50 → v.label = "Caution") ∧ (v.score = 49 → v.label = "Risk") := by
  obtain ⟨net, s, sg, -, rfl⟩ := wallet_check_ok_inv address evm v h
  obtain ⟨hs, ht⟩ := finishWallet_tier (pyStrip address) net s sg
  have hl : (finishWallet (pyStrip address) net s sg).label = (walletTier s).1 := by
    rw [← ht]
  have hc : (finishWallet (pyStrip address) net s sg).color = (walletTier s).2.1 := by
    rw [← ht]
  rw [hs]
  refine ⟨ht, fun h80 => ?_, fun h50 h80 => ?_, fun h50 => ?_,
    fun he => ?_, fun he => ?_, fun he => ?_, fun he => ?_⟩
  · rw [hl, hc]; unfold walletTier; rw [if_pos h80]; exact ⟨rfl, rfl⟩
  · rw [hl, hc]; unfold walletTier; rw [if_neg (by omega), if_pos h50]; exact ⟨rfl, rfl⟩
  · rw [hl, hc]; unfold walletTier; rw [if_neg (by omega), if_neg (by omega)]; exact ⟨rfl, rfl⟩
  · rw [hl, he]; decide
  · rw [hl, he]; decide
  · rw [hl, he]; decide
  · rw [hl, he]; decide

/-- Witness for C2: a concrete EVM address whose enriched score is 60 gets
Caution/yellow. -/
theorem wallet_labels_from_score_witness :
    exampleEvmVerdict.label = "Caution" ∧ exampleEvmVerdict.color = "yellow" :=
  (wallet_labels_from_score "0xaaaaaaaaaaaaaaaaaaaaaaaaaaaaaaaaaaaaaaaa"
      (.success 0 5) exampleEvmVerdict (by decide)).2.2.1 (by decide) (by decide)

/-- C3 counterexample: an exception inside `check_evm_wallet` (its two HTTP
calls sit in no try/except, app/sources.py 38-50) propagates out of
`wallet_check` — this enrichment failure mode is fatal to the call, so
"enrichment failure is never fatal" does not hold of the code. -/
theorem wallet_enrichment_fatal_counterexample :
    check_evm_wallet "key" ⟨true, none, none⟩ = .raise ∧
    wallet_check "0xaaaaaaaaaaaaaaaaaaaaaaaaaaaaaaaaaaaaaaaa" .raise = .exn := by
  decide

/-- C3 (amended): for an EVM-family address, when the enrichment call
*returns*: a success reporting nonzero balance or nonzero tx count makes the
final score exactly `max(baseline, 60)` (hence ≥ 60), and a returned failure
(`ok: false`, e.g. missing API key) still yields an `ok` verdict from the
baseline score plus the "EVM explorer check failed" signal; but an exception
raised inside the enrichment call propagates out of `wallet_check`
uncaught. -/
theorem wallet_enrichment_amended (address : String) (net : Net)
    (hnet : detect_network (pyStrip address) = some net)
    (hevm : net.code ∈ EVM_CODES) :
    (∀ (bw : Int) (tx : Nat) (v : WalletVerdict), (0 < bw ∨ 0 < tx) →
      wallet_check address (.success bw tx) = .ok v →
      v.score = max (stableScore (pyStrip address)) 60 ∧ 60 ≤ v.score) ∧
    (∀ e, wallet_check address (.fail e) =
      .ok (finishWallet (pyStrip address) net (stableScore (pyStrip address))
            [Signal.evmCheckFailed])) ∧
    wallet_check address .raise = .exn := by
  refine ⟨fun bw tx v hpos h => ?_, fun e => ?_, ?_⟩
  · simp only [wallet_check, hnet, if_pos hevm] at h
    rw [if_pos (by rcases hpos with h1 | h1 <;> simp [h1])] at h
    have hv : v = finishWallet (pyStrip address) net
        (max (stableScore (pyStrip address)) 60)
        [Signal.balance bw, Signal.transactions tx] := by simpa using h.symm
    rw [hv, (finishWallet_tier _ _ _ _).1]
    exact ⟨rfl, le_max_right _ _⟩
  · simp only [wallet_check, hnet, if_pos hevm]
  · simp only [wallet_check, hnet, if_pos hevm]

/-- Witness for C3's amended theorem: a concrete EVM address with baseline 19
and `tx_count = 5` scores exactly `max(19, 60) = 60`. -/
theorem wallet_enrichment_amended_witness :
    exampleEvmVerdict.score =
      max (stableScore (pyStrip "0xaaaaaaaaaaaaaaaaaaaaaaaaaaaaaaaaaaaaaaaa")) 60 ∧
    60 ≤ exampleEvmVerdict.score :=
  (wallet_enrichment_amended "0xaaaaaaaaaaaaaaaaaaaaaaaaaaaaaaaaaaaaaaaa"
      ⟨"Ethereum (Mainnet)", "ETH", evmM⟩ rfl (by decide)).1 0 5 exampleEvmVerdict
    (Or.inr (by decide)) (by decide)

/-- Helper: a successful `List.find?` returns the first satisfying element:
it is in the list, satisfies the predicate, and everything before it fails. -/
theorem find?_first {α : Type} (p : α → Bool) :
    ∀ (l : List α) (a : α), l.find? p = some a →
      ∃ i : Fin l.length, l.get i = a ∧ p a = true ∧
        ∀ j : Fin l.length, (j : Nat) < (i : Nat) → p (l.get j) = false := by
  intro l
  induction l with
  | nil => intro a h; simp [List.find?] at h
  | cons c cs ih =>
    intro a h
    cases hpc : p c with
    | true =>
      rw [List.find?_cons_of_pos _ hpc] at h
      obtain rfl : c = a := by simpa using h
      exact ⟨⟨0, by simp⟩, rfl, hpc, fun j hj => by simp at hj⟩
    | false =>
      rw [List.find?_cons_of_neg _ (by simp [hpc])] at h
      obtain ⟨i, hget, hpa, hbef⟩ := ih a h
      refine ⟨⟨i.1 + 1, by have := i.2; simp only [List.length_cons]; omega⟩,
        by simpa using hget, hpa, fun j hj => ?_⟩
      rcases j with ⟨jv, hjv⟩
      cases jv with
      | zero => simpa using hpc
      | succ jv =>
        have := hbef ⟨jv, by simp at hjv; omega⟩ (by simpa using hj)
        simpa using this

/-- Helper: none of the four non-EVM rows before the ETH row can match a
string starting with the characters `0x`. -/
theorem pre_evm_rows_reject (t : List Char) :
    btcM ('0' :: 'x' :: t) = false ∧ ltcM ('0' :: 'x' :: t) = false ∧
    bchM ('0' :: 'x' :: t) = false ∧ dogeM ('0' :: 'x' :: t) = false :=
  ⟨rfl, rfl, rfl, rfl⟩

/-- C4: `detect_network` strips its input and returns the first row of the
ordered `NETWORKS` table whose full-string matcher accepts it (`none` when no
row matches); every `0x`+40-hex string is therefore classified as the first
EVM row, Ethereum (Mainnet) / ETH; and whenever detection fails,
`wallet_check` returns the `ok: false` error listing the supported
networks. -/
theorem detect_network_spec (s : String) (evm : EvmOutcome) :
    (∀ n, detect_network s = some n →
      ∃ i : Fin NETWORKS.length, NETWORKS.get i = n ∧
        n.matcher (pyStripL s.data) = true ∧
        ∀ j : Fin NETWORKS.length, (j : Nat) < (i : Nat) →
          (NETWORKS.get j).matcher (pyStripL s.data) = false) ∧
    (detect_network s = none ↔ ∀ n ∈ NETWORKS, n.matcher (pyStripL s.data) = false) ∧
    (isEthShape (pyStripL s.data) = true →
      (detect_network s).map (fun n => (n.name, n.code)) =
        some ("Ethereum (Mainnet)", "ETH")) ∧
    (detect_network (pyStrip s) = none →
      wallet_check s evm = .invalid INVALID_ADDRESS_MSG) := by
  refine ⟨fun n h => ?_, ?_, fun hshape => ?_, fun hnone => ?_⟩
  · simp only [detect_network] at h
    exact find?_first _ NETWORKS n h
  · simp only [detect_network, List.find?_eq_none]
    constructor
    · intro h n hn
      have := h n hn
      simpa using this
    · intro h n hn
      simp [h n hn]
  · rcases hl : pyStripL s.data with _ | ⟨c0, _ | ⟨c1, t⟩⟩ <;> rw [hl] at hshape
    · cases hshape
    · cases hshape
    · have hsh : (c0 = '0' && c1 = 'x' && t.all hexC && decide (t.length = 40)) = true := hshape
      simp only [Bool.and_eq_true, decide_eq_true_eq] at hsh
      obtain ⟨⟨⟨hc0, hc1⟩, hall⟩, hlen⟩ := hsh
      subst hc0; subst hc1
      obtain ⟨hbtc, hltc, hbch, hdoge⟩ := pre_evm_rows_reject t
      have hevm : evmM ('0' :: 'x' :: t) = true := by
        simp [evmM, preCS, stripPre, allCS, hall, hlen]
      simp only [detect_network, hl, NETWORKS]
      rw [List.find?_cons_of_neg _ (by simpa using hbtc),
          List.find?_cons_of_neg _ (by simpa using hltc),
          List.find?_cons_of_neg _ (by simpa using hbch),
          List.find?_cons_of_neg _ (by simpa using hdoge),
          List.find?_cons_of_pos _ (by simpa using hevm)]
      rfl
  · unfold wallet_check
    simp only [hnone]

/-- Witness for C4: a checksummed mainnet address detects as ETH, and a
malformed string is rejected by `wallet_check` with the supported-network
listing. -/
theorem detect_network_spec_witness :
    (detect_network "0x52908400098527886E0F7030069857D2E4169EE7").map
        (fun n => (n.name, n.code)) = some ("Ethereum (Mainnet)", "ETH") ∧
    wallet_check "not-an-address!!" (.success 0 0) = .invalid INVALID_ADDRESS_MSG :=
  ⟨(detect_network_spec "0x52908400098527886E0F7030069857D2E4169EE7"
      (.success 0 0)).2.2.1 (by decide),
   (detect_network_spec "not-an-address!!" (.success 0 0)).2.2.2 rfl⟩

/-- C9: the SELECT-then-UPDATE of `try_consume_wallet_check` (lines 103 and
110 of app/database.py) is not guarded by any lock or transaction, so
per-statement-atomic interleavings are possible in which every call's SELECT
precedes every UPDATE.  Serialized, 4 calls against limit 3 give exactly
min(4,3) = 3 successes and a final counter of 3 (the claim's prediction);
under the racy schedule all 4 calls succeed and the counter ends at 1 — a
lost update, contradicting the claimed atomicity. -/
theorem quota_consume_not_atomic :
    MAX_FREE_WALLET_CHECKS = 3 ∧
    qSuccesses (qRun 4 (seqSched 4)) = 3 ∧ (qRun 4 (seqSched 4)).count = 3 ∧
    qSuccesses (qRun 4 (raceSched 4)) = 4 ∧ (qRun 4 (raceSched 4)).count = 1 := by
  decide

/-- Helper: the link-path labeler only produces "Safe" below risk 40. -/
theorem labelPack_safe_below (r : Nat) : (labelPack r).1 = "Safe" → r < 40 := by
  unfold labelPack
  split_ifs with h1 h2
  · intro h; exact absurd h (by decide)
  · intro h; exact absurd h (by decide)
  · intro _; omega

/-- C5: the Discord-invite branch of `group_quick_check` (app/sources.py
249-295): a 404 from the invite API is a terminal Risk 85 verdict; any other
non-200 response a Caution 55 verdict with no further heuristics; and on
success the member count alone picks 75 / 50 / 55, labeled by the link-path
labeler. -/
theorem discord_invite_spec (url : String) (dc : DcResp) (tg : TgFetch)
    (code : List Char) (h : dcSearch (pyStripL url.data) = some code) :
    (dc.status = 404 → group_quick_check url dc tg =
      .ok { platform := "Discord", type? := none, url := String.mk (pyStripL url.data)
            risk := 85, label := "Risk", color := "red"
            summary := "Discord invite is invalid or expired."
            signals := [.detectedPlatform "Discord", .dcInviteNotFound]
            tips := ["Ask admins for a fresh invite",
              "Check official site/socials for links"] }) ∧
    (dc.status ≠ 404 → dc.status ≠ 200 → group_quick_check url dc tg =
      .ok { platform := "Discord", type? := none, url := String.mk (pyStripL url.data)
            risk := 55, label := "Caution", color := "yellow"
            summary := "Discord API returned " ++ toString dc.status
            signals := [.detectedPlatform "Discord"]
            tips := ["Try again later"] }) ∧
    (dc.status = 200 → dc.members < 10 → group_quick_check url dc tg =
      .ok { platform := "Discord", type? := none, url := String.mk (pyStripL url.data)
            risk := 75, label := (labelPack 75).1, color := (labelPack 75).2.1
            summary := (labelPack 75).2.2
            signals := [.detectedPlatform "Discord", .dcMembers dc.members dc.presence]
            tips := ["Check pinned rules and roles", "Do not DM unknown users"] } ∧
      (labelPack 75).1 = "Risk") ∧
    (dc.status = 200 → 100 ≤ dc.members → group_quick_check url dc tg =
      .ok { platform := "Discord", type? := none, url := String.mk (pyStripL url.data)
            risk := 50, label := (labelPack 50).1, color := (labelPack 50).2.1
            summary := (labelPack 50).2.2
            signals := [.detectedPlatform "Discord", .dcMembers dc.members dc.presence]
            tips := ["Check pinned rules and roles", "Do not DM unknown users"] } ∧
      (labelPack 50).1 = "Caution") ∧
    (dc.status = 200 → 10 ≤ dc.members → dc.members < 100 →
      group_quick_check url dc tg =
      .ok { platform := "Discord", type? := none, url := String.mk (pyStripL url.data)
            risk := 55, label := (labelPack 55).1, color := (labelPack 55).2.1
            summary := (labelPack 55).2.2
            signals := [.detectedPlatform "Discord", .dcMembers dc.members dc.presence]
            tips := ["Check pinned rules and roles", "Do not DM unknown users"] } ∧
      (labelPack 55).1 = "Caution") := by
  have hne : pyStripL url.data ≠ [] := by
    intro he
    rw [he] at h
    exact Option.noConfusion h
  refine ⟨fun h404 => ?_, fun h404 h200 => ?_, fun h200 hlo => ?_,
    fun h200 hhi => ?_, fun h200 hlo hhi => ?_⟩
  · simp only [group_quick_check, if_neg hne, h, if_pos h404]
  · simp only [group_quick_check, if_neg hne, h]
    rw [if_neg h404, if_pos h200]
  · refine ⟨?_, by decide⟩
    simp only [group_quick_check, if_neg hne, h, h200]
    rw [if_neg (by decide : ¬ (200 : Nat) = 404), if_neg (by decide : ¬ (200 : Nat) ≠ 200),
      if_neg (by omega : ¬ 100 ≤ dc.members), if_pos hlo]
  · refine ⟨?_, by decide⟩
    simp only [group_quick_check, if_neg hne, h, h200]
    rw [if_neg (by decide : ¬ (200 : Nat) = 404), if_neg (by decide : ¬ (200 : Nat) ≠ 200),
      if_pos hhi]
  · refine ⟨?_, by decide⟩
    simp only [group_quick_check, if_neg hne, h, h200]
    rw [if_neg (by decide : ¬ (200 : Nat) = 404), if_neg (by decide : ¬ (200 : Nat) ≠ 200),
      if_neg (by omega : ¬ 100 ≤ dc.members), if_neg (by omega : ¬ dc.members < 10)]

/-- Witness for C5: the spec's "deadinvite returns 404" scenario yields
Risk 85. -/
theorem discord_invite_spec_witness :
    group_quick_check "https://discord.gg/deadinvite" ⟨404, 0, 0⟩ .exn =
      .ok { platform := "Discord", type? := none, url := "https://discord.gg/deadinvite"
            risk := 85, label := "Risk", color := "red"
            summary := "Discord invite is invalid or expired."
            signals := [.detectedPlatform "Discord", .dcInviteNotFound]
            tips := ["Ask admins for a fresh invite",
              "Check official site/socials for links"] } :=
  (discord_invite_spec "https://discord.gg/deadinvite" ⟨404, 0, 0⟩ .exn
      ("deadinvite").data (by decide)).1 rfl

/-- C6 counterexample: when none of the three link patterns matches, the
error message of app/sources.py line 302 names only the two accepted
*Telegram* link forms — it does not name Discord, so it does not name "the
two accepted platforms". -/
theorem invalid_link_names_one_platform :
    group_quick_check "https://example.com" ⟨200, 0, 0⟩ .exn = .err INVALID_LINK_MSG ∧
    containsSub ("Telegram").data INVALID_LINK_MSG.data = true ∧
    containsSub ("Discord").data INVALID_LINK_MSG.data = false ∧
    containsSub ("discord").data INVALID_LINK_MSG.data = false := by
  decide

/-- C6 (amended): with no Discord match, a Telegram invite-link match yields
the fixed Caution 50 invite verdict independent of any network fetch; a
matched username classifies the fetched profile page into not-found → Risk
85, channel/group markers → Caution 50, otherwise personal account → Caution
45, with a fetch exception degrading to the Caution 45 fallback and its
explicit fallback signal; and when none of the three patterns matches the
call fails with the `ok: false` invalid-link error, which names the two
accepted Telegram link forms but not Discord. -/
theorem telegram_path_amended (url : String) (dc : DcResp) (tg : TgFetch)
    (hdc : dcSearch (pyStripL url.data) = none) :
    (∀ j, tgJoinSearch (pyStripL url.data) = some j →
      group_quick_check url dc tg =
        .ok { platform := "Telegram", type? := some "invite"
              url := String.mk (pyStripL url.data)
              risk := 50, label := "Caution", color := "yellow"
              summary := "Group/Channel (invite)"
              signals := [.detectedPlatform "Telegram", .tgInvitePattern]
              tips := ["Open in Telegram app and verify admins"] }) ∧
    (tgJoinSearch (pyStripL url.data) = none →
      ∀ uname, tgUserSearch (pyStripL url.data) = some uname →
      (tg = .exn → group_quick_check url dc tg =
        .ok { platform := "Telegram", type? := some "user"
              url := String.mk (pyStripL url.data)
              risk := 45, label := "Caution", color := "yellow"
              summary := "Personal account"
              signals := [.detectedPlatform "Telegram", .tgNetworkFallback]
              tips := ["Open in Telegram app to verify profile"] }) ∧
      (∀ st text, tg = .resp st text →
        (tgNotFound st (text.data.map Char.toLower) = true →
          group_quick_check url dc tg =
          .ok { platform := "Telegram", type? := some "user_or_chat_missing"
                url := String.mk (pyStripL url.data)
                risk := 85, label := "Risk", color := "red"
                summary := "User not found"
                signals := [.detectedPlatform "Telegram",
                  .tgUserNotFound (String.mk uname)]
                tips := ["Check spelling or share a correct link"] }) ∧
        (tgNotFound st (text.data.map Char.toLower) = false →
          tgIsChat (text.data.map Char.toLower) = true →
          group_quick_check url dc tg =
          .ok { platform := "Telegram", type? := some "chat"
                url := String.mk (pyStripL url.data)
                risk := 50, label := "Caution", color := "yellow"
                summary := "Group/Channel"
                signals := [.detectedPlatform "Telegram", .tgChannelMarkers]
                tips := ["Open in Telegram app and verify admins"] }) ∧
        (tgNotFound st (text.data.map Char.toLower) = false →
          tgIsChat (text.data.map Char.toLower) = false →
          group_quick_check url dc tg =
          .ok { platform := "Telegram", type? := some "user"
                url := String.mk (pyStripL url.data)
                risk := 45, label := "Caution", color := "yellow"
                summary := "Personal account"
                signals := [.detectedPlatform "Telegram", .tgUserReachable]
                tips := ["Open in Telegram app to verify profile"] }))) ∧
    (tgJoinSearch (pyStripL url.data) = none →
      tgUserSearch (pyStripL url.data) = none →
      pyStripL url.data ≠ [] →
      group_quick_check url dc tg = .err INVALID_LINK_MSG ∧
      containsSub ("Telegram").data INVALID_LINK_MSG.data = true ∧
      containsSub ("Discord").data INVALID_LINK_MSG.data = false) := by
  refine ⟨fun j hj => ?_, fun hj uname hu => ⟨fun htg => ?_, fun st text htg => ?_⟩,
    fun hj hu hne => ?_⟩
  · have hne : pyStripL url.data ≠ [] := by
      intro he; rw [he] at hj; exact Option.noConfusion hj
    simp only [group_quick_check, if_neg hne, hdc, hj]
    rfl
  · have hne : pyStripL url.data ≠ [] := by
      intro he; rw [he] at hu; exact Option.noConfusion hu
    subst htg
    simp only [group_quick_check, if_neg hne, hdc, hj, hu]
    rfl
  · have hne : pyStripL url.data ≠ [] := by
      intro he; rw [he] at hu; exact Option.noConfusion hu
    subst htg
    refine ⟨fun hnf => ?_, fun hnf hchat => ?_, fun hnf hchat => ?_⟩
    · simp only [group_quick_check, if_neg hne, hdc, hj, hu, if_pos hnf]
      rfl
    · simp only [group_quick_check, if_neg hne, hdc, hj, hu]
      rw [if_neg (by simp [hnf]), if_pos hchat]
      rfl
    · simp only [group_quick_check, if_neg hne, hdc, hj, hu]
      rw [if_neg (by simp [hnf]), if_neg (by simp [hchat])]
      rfl
  · refine ⟨?_, by decide, by decide⟩
    simp only [group_quick_check, if_neg hne, hdc, hj, hu]

/-- Witness for C6's amended theorem: the spec's "realuser123, 200, no
markers" scenario yields the Telegram user / Caution 45 verdict. -/
theorem telegram_path_amended_witness :
    group_quick_check "https://t.me/realuser123" ⟨200, 0, 0⟩
      (.resp 200 "profile page") = .ok exampleUserVerdict :=
  (((telegram_path_amended "https://t.me/realuser123" ⟨200, 0, 0⟩
        (.resp 200 "profile page") (by decide)).2.1 (by decide)
      ("realuser123").data (by decide)).2 200 "profile page" rfl).2.2
    (by decide) (by decide)

/-- C10: every `ok` result of `group_quick_check` carries a risk drawn from
{45, 50, 55, 75, 85} and a label in {Caution, Risk}; "Safe", which the
link-path labeler reserves for risk < 40, is unreachable. -/
theorem link_risk_closed (url : String) (dc : DcResp) (tg : TgFetch)
    (v : GroupVerdict) (h : group_quick_check url dc tg = .ok v) :
    (v.risk = 45 ∨ v.risk = 50 ∨ v.risk = 55 ∨ v.risk = 75 ∨ v.risk = 85) ∧
    (v.label = "Caution" ∨ v.label = "Risk") ∧
    v.label ≠ "Safe" ∧
    (∀ r : Nat, (labelPack r).1 = "Safe" → r < 40) := by
  simp only [group_quick_check] at h
  by_cases hemp : pyStripL url.data = []
  · rw [if_pos hemp] at h
    cases h
  · rw [if_neg hemp] at h
    cases hdc : dcSearch (pyStripL url.data) with
    | some code =>
      simp only [hdc] at h
      by_cases h404 : dc.status = 404
      · rw [if_pos h404] at h
        injection h with hv; subst hv
        refine ⟨?_, ?_, ?_, labelPack_safe_below⟩ <;> simp [labelPack]
      · rw [if_neg h404] at h
        by_cases h200 : dc.status ≠ 200
        · rw [if_pos h200] at h
          injection h with hv; subst hv
          refine ⟨?_, ?_, ?_, labelPack_safe_below⟩ <;> simp [labelPack]
        · rw [if_neg h200] at h
          by_cases hm : 100 ≤ dc.members
          · rw [if_pos hm] at h
            injection h with hv; subst hv
            refine ⟨?_, ?_, ?_, labelPack_safe_below⟩ <;> simp [labelPack]
          · rw [if_neg hm] at h
            by_cases hten : dc.members < 10
            · rw [if_pos hten] at h
              injection h with hv; subst hv
              refine ⟨?_, ?_, ?_, labelPack_safe_below⟩ <;> simp [labelPack]
            · rw [if_neg hten] at h
              injection h with hv; subst hv
              refine ⟨?_, ?_, ?_, labelPack_safe_below⟩ <;> simp [labelPack]
    | none =>
      simp only [hdc] at h
      cases hj : tgJoinSearch (pyStripL url.data) with
      | some j =>
        simp only [hj] at h
        injection h with hv; subst hv
        refine ⟨?_, ?_, ?_, labelPack_safe_below⟩ <;> simp [labelPack]
      | none =>
        simp only [hj] at h
        cases hu : tgUserSearch (pyStripL url.data) with
        | none =>
          simp only [hu] at h
          cases h
        | some uname =>
          simp only [hu] at h
          cases tg with
          | exn =>
            injection h with hv; subst hv
            refine ⟨?_, ?_, ?_, labelPack_safe_below⟩ <;> simp [labelPack]
          | resp st text =>
            simp only [] at h
            by_cases hnf : tgNotFound st (List.map Char.toLower text.data) = true
            · rw [if_pos hnf] at h
              injection h with hv; subst hv
              refine ⟨?_, ?_, ?_, labelPack_safe_below⟩ <;> simp [labelPack]
            · rw [if_neg hnf] at h
              by_cases hchat : tgIsChat (List.map Char.toLower text.data) = true
              · rw [if_pos hchat] at h
                injection h with hv; subst hv
                refine ⟨?_, ?_, ?_, labelPack_safe_below⟩ <;> simp [labelPack]
              · rw [if_neg hchat] at h
                injection h with hv; subst hv
                refine ⟨?_, ?_, ?_, labelPack_safe_below⟩ <;> simp [labelPack]

/-- Witness for C10 at the Telegram invite verdict. -/
theorem link_risk_closed_witness :
    (exampleInviteVerdict.risk = 45 ∨ exampleInviteVerdict.risk = 50 ∨
      exampleInviteVerdict.risk = 55 ∨ exampleInviteVerdict.risk = 75 ∨
      exampleInviteVerdict.risk = 85) ∧
    (exampleInviteVerdict.label = "Caution" ∨ exampleInviteVerdict.label = "Risk") ∧
    exampleInviteVerdict.label ≠ "Safe" ∧
    (∀ r : Nat, (labelPack r).1 = "Safe" → r < 40) :=
  link_risk_closed "https://t.me/+abcdef123" ⟨200, 0, 0⟩ .exn
    exampleInviteVerdict (by decide)

end ScamCheck
